import Mathlib

/-!
Shallow embedding of the incoming-message ingestion pipeline and the
document processing task of the whapi-numerize-server repository.

The embedded functions follow, statement by statement, the source files
src/routes/webhookRoutes.js (router.post, processMessage,
processMediaDocument) and src/controllers/documentController.js
(processDocument, the message-controller helper _processMediaDocument).
External collaborators (provider client, OCR client) are passed in as an
environment of functions returning Except values; the persistence store is
an explicit record of chat, message and document lists with a fresh-id
allocator; observable effects (HTTP responses, socket broadcasts, external
calls) are collected in an ordered trace.
-/

namespace Numerize

/-- Chat metadata returned by the provider client getChatInfo call. -/
structure WhapiChat where
  id : String
  name : Option String
  subject : Option String
  isGroup : Option Bool
  participants : List String
  profilePictureUrl : Option String
deriving DecidableEq, Repr

/-- Persisted Chat record (src/models/Chat.js fields used by the pipeline);
ref models the store-assigned _id. -/
structure Chat where
  ref : Nat
  chatId : String
  name : String
  isGroup : Bool
  participants : List String
  profilePicture : String
  lastMessage : Option Nat
deriving DecidableEq, Repr

/-- Persisted Message record; ref models the store-assigned _id and chat
holds the ref of the owning Chat. -/
structure Message where
  ref : Nat
  messageId : String
  chat : Nat
  sender : String
  content : String
  mediaType : String
  mediaUrl : String
  quoteId : Option String
  mentions : List String
  reactions : List (String × String)
  timestamp : Nat
deriving DecidableEq, Repr

/-- Result of the OCR client; only the text field is inspected by the
pipeline (processedDocument.text), the whole value is stored verbatim. -/
structure OcrResult where
  text : Option String
deriving DecidableEq, Repr

/-- Persisted Document record (src/models/Document.js fields set by the
pipeline). -/
structure Document where
  ref : Nat
  originalMessage : Nat
  chat : Nat
  fileUrl : String
  fileType : String
  fileName : String
  transcription : OcrResult
  rawText : String
deriving DecidableEq, Repr

/-- Inbound webhook message payload (webhook.data) with the optional
fields the code defaults with JavaScript or-expressions. -/
structure MessageData where
  id : String
  chatId : String
  sender : Option String
  text : Option String
  mediaType : Option String
  mediaUrl : Option String
  quotedMsgId : Option String
  mentions : List String
  reactions : List (String × String)
  timestamp : Option Nat
deriving DecidableEq, Repr

/-- Inbound webhook envelope: an event tag and an optional data payload. -/
structure Webhook where
  event : String
  data : Option MessageData
deriving DecidableEq, Repr

/-- Persistence store: the three record collections plus a fresh-id
allocator standing for store-assigned object ids. -/
structure DB where
  chats : List Chat
  messages : List Message
  documents : List Document
  nextId : Nat
deriving DecidableEq, Repr

/-- External collaborators: provider client (getChatInfo, downloadMedia),
OCR client (processDocument of documentAiService), and the clock used for
defaulted timestamps. A download yields an opaque buffer token. -/
structure Env where
  getChatInfo : String → Except String WhapiChat
  downloadMedia : String → Except String Nat
  ocrProcess : Nat → String → Except String OcrResult
  now : Nat

/-- Payload carried by a broadcast. -/
inductive Payload where
  | chat (chatRef : Nat)
  | msg (msgRef : Nat)
  | msgDoc (msgRef docRef : Nat)
  | msgErr (msgRef : Nat) (err : String)
deriving DecidableEq, Repr

/-- Observable effect: an HTTP response, a topic broadcast
(io.to(topic).emit), a global broadcast (io.emit), or a call to an
external collaborator. Console logging is not modelled as observable. -/
inductive Eff where
  | respond (status : Nat) (body : String)
  | emit (topic : String) (event : String) (payload : Payload)
  | emitAll (event : String) (payload : Payload)
  | callGetChatInfo (chatId : String)
  | callDownload (url : String)
  | callOcr (mime : String)
deriving DecidableEq, Repr

/-- JavaScript a or-else b over an optional string: undefined and the
empty string are falsy. -/
def jsOr (a : Option String) (b : String) : String :=
  match a with
  | some s => if s = "" then b else s
  | none => b

/-- JavaScript x or-else null over an optional string: an empty string
collapses to null. -/
def jsOrNull (a : Option String) : Option String :=
  match a with
  | some s => if s = "" then none else some s
  | none => none

/-- JavaScript t or-else now over an optional numeric timestamp: undefined
and 0 are falsy. -/
def jsTime (a : Option Nat) (now : Nat) : Nat :=
  match a with
  | some t => if t = 0 then now else t
  | none => now

/-- Characters after the last dot of a character list (the whole list when
no dot occurs): the JS expression url.split(".").pop(). -/
def lastSeg (l : List Char) : List Char :=
  l.foldl (fun acc c => if c = '.' then [] else acc ++ [c]) []

/-- The JS expression url.split(".").pop().toLowerCase(). -/
def extOf (url : String) : String :=
  String.mk ((lastSeg url.toList).map Char.toLower)

/-- File-type and MIME classification of processMediaDocument in
src/routes/webhookRoutes.js lines 116-137: image is fixed, any other
media type is classified by the lowercased URL extension. -/
def classifyWebhook (mediaType mediaUrl : String) : String × String :=
  if mediaType = "image" then
    ("image", "image/jpeg")
  else
    let fileExt := extOf mediaUrl
    if fileExt = "pdf" then
      ("pdf", "application/pdf")
    else if fileExt ∈ (["doc", "docx"] : List String) then
      ("doc", "application/msword")
    else
      ("other", "application/octet-stream")

/-- File-type and MIME classification of processDocument in
src/controllers/documentController.js lines 89-110 (same shape: image
fixed, else by extension). -/
def classifyProcessDocument (mediaType mediaUrl : String) : String × String :=
  if mediaType = "image" then
    ("image", "image/jpeg")
  else
    let fileExt := extOf mediaUrl
    if fileExt = "pdf" then
      ("pdf", "application/pdf")
    else if fileExt ∈ (["doc", "docx"] : List String) then
      ("doc", "application/msword")
    else
      ("other", "application/octet-stream")

/-- File-type and MIME classification of the helper _processMediaDocument
in documentController.js lines 239-261: image fixed, document by
extension, any other media type returns early (none). -/
def classifyHelper (mediaType mediaUrl : String) : Option (String × String) :=
  if mediaType = "image" then
    some ("image", "image/jpeg")
  else if mediaType = "document" then
    let fileExt := extOf mediaUrl
    if fileExt = "pdf" then
      some ("pdf", "application/pdf")
    else if fileExt ∈ (["doc", "docx"] : List String) then
      some ("doc", "application/msword")
    else
      some ("other", "application/octet-stream")
  else
    none

/-- Chat.findOne on the external chat identifier. -/
def DB.findChat (db : DB) (chatId : String) : Option Chat :=
  db.chats.find? (fun c => c.chatId == chatId)

/-- Message.findOne on the external message identifier. -/
def DB.findMessageById (db : DB) (messageId : String) : Option Message :=
  db.messages.find? (fun m => m.messageId == messageId)

/-- Message.findById on the store-assigned id. -/
def DB.findMessageRef (db : DB) (r : Nat) : Option Message :=
  db.messages.find? (fun m => m.ref == r)

/-- Chat lookup by store-assigned id (the populate step). -/
def DB.findChatRef (db : DB) (r : Nat) : Option Chat :=
  db.chats.find? (fun c => c.ref == r)

/-- Document.findOne on the originating-message reference. -/
def DB.findDocumentFor (db : DB) (msgRef : Nat) : Option Document :=
  db.documents.find? (fun d => d.originalMessage == msgRef)

/-- Saving an in-place mutation of an existing Chat record. -/
def DB.updateChat (db : DB) (c : Chat) : DB :=
  { db with chats := db.chats.map (fun c0 => if c0.ref = c.ref then c else c0) }

/-- Document record construction and save, shared by all three entry
points of the document processing task: fields exactly as in the three
new Document({...}) literals. -/
def saveDocument (db : DB) (message : Message) (chatRef : Nat)
    (fileType : String) (ocr : OcrResult) : Document × DB :=
  let doc : Document :=
    { ref := db.nextId
      originalMessage := message.ref
      chat := chatRef
      fileUrl := message.mediaUrl
      fileType := fileType
      fileName := "file_" ++ toString message.ref ++ "." ++ fileType
      transcription := ocr
      rawText := (ocr.text).getD "" }
  (doc, { db with documents := db.documents ++ [doc], nextId := db.nextId + 1 })

/-- Document processing task, webhook-triggered entry point:
processMediaDocument of src/routes/webhookRoutes.js lines 111-172.
Emits the processing-started broadcast, classifies, downloads, runs OCR,
saves the Document and broadcasts completion; any failure is caught and
broadcast as a document-processing-error event. -/
def processMediaDocument (env : Env) (message : Message) (chat : Chat)
    (db : DB) : DB × List Eff :=
  let start : Eff := .emit chat.chatId "document_processing" (.msg message.ref)
  let ft := classifyWebhook message.mediaType message.mediaUrl
  match env.downloadMedia message.mediaUrl with
  | .error e =>
      (db, [start, .callDownload message.mediaUrl,
            .emit chat.chatId "document_processing_error" (.msgErr message.ref e)])
  | .ok buf =>
      match env.ocrProcess buf ft.2 with
      | .error e =>
          (db, [start, .callDownload message.mediaUrl, .callOcr ft.2,
                .emit chat.chatId "document_processing_error" (.msgErr message.ref e)])
      | .ok ocr =>
          let (doc, db1) := saveDocument db message chat.ref ft.1 ocr
          (db1, [start, .callDownload message.mediaUrl, .callOcr ft.2,
                 .emit chat.chatId "document_processed" (.msgDoc message.ref doc.ref)])

/-- Document processing task, history-fetch-triggered entry point: the
helper _processMediaDocument of documentController.js lines 237-292.
Downloads, runs OCR and saves the Document; the completion emit then
reads the io export of the app module, which does not exist (app.js
exports only app and server), so that emit throws and is swallowed by
the catch: the helper never broadcasts document_processed. Its failure
paths are caught by the same catch block, which only logs - so no run of
the helper ever broadcasts anything. -/
def _processMediaDocument (env : Env) (message : Message) (chat : Chat)
    (db : DB) : DB × List Eff :=
  match classifyHelper message.mediaType message.mediaUrl with
  | none => (db, [])
  | some ft =>
      match env.downloadMedia message.mediaUrl with
      | .error _ => (db, [.callDownload message.mediaUrl])
      | .ok buf =>
          match env.ocrProcess buf ft.2 with
          | .error _ => (db, [.callDownload message.mediaUrl, .callOcr ft.2])
          | .ok ocr =>
              ((saveDocument db message chat.ref ft.1 ocr).2,
               [.callDownload message.mediaUrl, .callOcr ft.2])

/-- Document processing task, manually-triggered entry point:
processDocument of documentController.js lines 63-154. Guards (message
found, processable media, no existing Document), classifies, then
responds 202. The module never requires whapiService, so the download
statement (line 118) throws a ReferenceError before any external call is
made: the background block can never download, call OCR, or create a
Document; its inner catch broadcasts one document-processing-error event
carrying the thrown message on the owning chat topic. When the populated
chat is missing that emit itself throws and reaches the outer handler:
modelled as a 500 response with no broadcast. -/
def processDocument (env : Env) (messageId : Nat) (db : DB) : DB × List Eff :=
  match db.findMessageRef messageId with
  | none => (db, [.respond 404 "Message not found"])
  | some message =>
      if message.mediaUrl = "" ∨
          (message.mediaType ≠ "image" ∧ message.mediaType ≠ "document") then
        (db, [.respond 400 "Message does not contain processable media"])
      else
        match db.findDocumentFor message.ref with
        | some _ => (db, [.respond 400 "Document already processed"])
        | none =>
            let _ft := classifyProcessDocument message.mediaType message.mediaUrl
            let ack : Eff := .respond 202 "Document processing started"
            match db.findChatRef message.chat with
            | some chat =>
                (db, [ack, .emit chat.chatId "document_processing_error"
                  (.msgErr message.ref "whapiService is not defined")])
            | none => (db, [ack, .respond 500 "TypeError"])

/-- Chat record built from provider metadata, exactly the new Chat({...})
literal of processMessage. -/
def chatFromWhapi (w : WhapiChat) (ref : Nat) : Chat :=
  { ref := ref
    chatId := w.id
    name := jsOr w.name (jsOr w.subject ("Chat with " ++ w.id))
    isGroup := w.isGroup.getD false
    participants := w.participants
    profilePicture := jsOr w.profilePictureUrl ""
    lastMessage := none }

/-- Message record built from the webhook payload, exactly the
new Message({...}) literal of processMessage. -/
def messageFromData (d : MessageData) (chatRef : Nat) (ref : Nat)
    (now : Nat) : Message :=
  { ref := ref
    messageId := d.id
    chat := chatRef
    sender := jsOr d.sender "unknown"
    content := jsOr d.text ""
    mediaType := jsOr d.mediaType "none"
    mediaUrl := jsOr d.mediaUrl ""
    quoteId := jsOrNull d.quotedMsgId
    mentions := d.mentions
    reactions := d.reactions
    timestamp := jsTime d.timestamp now }

/-- Ingestion pipeline: processMessage of src/routes/webhookRoutes.js
lines 41-103. Resolves or lazily creates the chat, deduplicates the
message by external id, persists it, updates the chat last-message
pointer, broadcasts new-message, and records (without running) the
fire-and-forget document processing invocation for image or document
media. A getChatInfo failure is caught and logged, aborting the event. -/
def processMessage (env : Env) (d : MessageData) (db : DB) :
    DB × List Eff × List (Message × Chat) :=
  let chatStep : Option (Chat × DB × List Eff) :=
    match db.findChat d.chatId with
    | some chat => some (chat, db, [])
    | none =>
        match env.getChatInfo d.chatId with
        | .error _ => none
        | .ok w =>
            let chat := chatFromWhapi w db.nextId
            some (chat,
              { db with chats := db.chats ++ [chat], nextId := db.nextId + 1 },
              [.callGetChatInfo d.chatId, .emitAll "new_chat" (.chat chat.ref)])
  match chatStep with
  | none => (db, [.callGetChatInfo d.chatId], [])
  | some (chat, db1, tr) =>
      match db1.findMessageById d.id with
      | some _ => (db1, tr, [])
      | none =>
          let m := messageFromData d chat.ref db1.nextId env.now
          let db2 := { db1 with messages := db1.messages ++ [m],
                                nextId := db1.nextId + 1 }
          let chat2 := { chat with lastMessage := some m.ref }
          let db3 := db2.updateChat chat2
          let tr2 := tr ++ [.emit d.chatId "new_message" (.msg m.ref)]
          if m.mediaType = "image" ∨ m.mediaType = "document" then
            (db3, tr2, [(m, chat2)])
          else
            (db3, tr2, [])

/-- Webhook endpoint handler: router.post of src/routes/webhookRoutes.js
lines 14-34. The 200 OK acknowledgment is the first statement; a message
event then runs the ingestion pipeline (whose failures are caught and
logged); any other event only logs. A message event without a data
payload throws on the first field access inside processMessage and is
caught, leaving no effect. -/
def webhookPost (env : Env) (w : Webhook) (db : DB) :
    DB × List Eff × List (Message × Chat) :=
  let ack : Eff := .respond 200 "OK"
  if w.event = "message" then
    match w.data with
    | some d =>
        let r := processMessage env d db
        (r.1, ack :: r.2.1, r.2.2)
    | none => (db, [ack], [])
  else
    (db, [ack], [])

/-- Runs the fire-and-forget document processing invocations recorded by
the ingestion pipeline (the event-loop continuation of the un-awaited
processMediaDocument calls). -/
def runPending (env : Env) (p : List (Message × Chat)) (db : DB) :
    DB × List Eff :=
  match p with
  | [] => (db, [])
  | (m, c) :: rest =>
      let r := processMediaDocument env m c db
      let r2 := runPending env rest r.1
      (r2.1, r.2 ++ r2.2)

/-- One full webhook delivery: the endpoint handler followed by the
completion of the detached document processing invocations. -/
def webhookDeliver (env : Env) (w : Webhook) (db : DB) : DB × List Eff :=
  let r := webhookPost env w db
  let r2 := runPending env r.2.2 r.1
  (r2.1, r.2.1 ++ r2.2)

/-- Count of broadcasts of a given event name in a trace. -/
def emitCount (event : String) (t : List Eff) : Nat :=
  (t.filter (fun e =>
    match e with
    | .emit _ ev _ => ev == event
    | .emitAll ev _ => ev == event
    | _ => false)).length

/-- Predicate for any broadcast effect. -/
def isEmit : Eff → Bool
  | .emit _ _ _ => true
  | .emitAll _ _ => true
  | _ => false

/-- Predicate for an HTTP response effect. -/
def isRespond : Eff → Bool
  | .respond _ _ => true
  | _ => false

/-- Predicate for an OCR client call. -/
def isOcrCall : Eff → Bool
  | .callOcr _ => true
  | _ => false

/-- Predicate for a media download call. -/
def isDownloadCall : Eff → Bool
  | .callDownload _ => true
  | _ => false

/-- Number of persisted Message records with a given external id. -/
def msgCount (db : DB) (messageId : String) : Nat :=
  (db.messages.filter (fun m => m.messageId == messageId)).length

/-- Number of persisted Chat records with a given external id. -/
def chatCount (db : DB) (chatId : String) : Nat :=
  (db.chats.filter (fun c => c.chatId == chatId)).length

/-- Number of persisted Document records originating from a given
message. -/
def docCountFor (db : DB) (msgRef : Nat) : Nat :=
  (db.documents.filter (fun d => d.originalMessage == msgRef)).length

end Numerize

namespace Numerize

/-- Provider and OCR environment in which every external call succeeds. -/
def envOk : Env where
  getChatInfo := fun cid => .ok
    { id := cid
      name := some "N"
      subject := none
      isGroup := some false
      participants := []
      profilePictureUrl := none }
  downloadMedia := fun _ => .ok 7
  ocrProcess := fun _ _ => .ok { text := some "hello" }
  now := 42

/-- Environment in which the media download fails. -/
def envDlFail : Env where
  getChatInfo := envOk.getChatInfo
  downloadMedia := fun _ => .error "boom"
  ocrProcess := envOk.ocrProcess
  now := 42

/-- A persisted chat. -/
def c0 : Chat where
  ref := 0
  chatId := "c1"
  name := "N"
  isGroup := false
  participants := []
  profilePicture := ""
  lastMessage := some 1

/-- A persisted document-media message owned by c0. -/
def m0 : Message where
  ref := 1
  messageId := "m1"
  chat := 0
  sender := "s"
  content := ""
  mediaType := "document"
  mediaUrl := "a.pdf"
  quoteId := none
  mentions := []
  reactions := []
  timestamp := 5

/-- A document already derived from m0. -/
def d0 : Document where
  ref := 2
  originalMessage := 1
  chat := 0
  fileUrl := "a.pdf"
  fileType := "pdf"
  fileName := "file_1.pdf"
  transcription := { text := some "t" }
  rawText := "t"

/-- Store holding c0, m0 and the already-created document d0. -/
def db0 : DB where
  chats := [c0]
  messages := [m0]
  documents := [d0]
  nextId := 3

/-- Store holding c0 and m0 with no document yet. -/
def db1 : DB where
  chats := [c0]
  messages := [m0]
  documents := []
  nextId := 3

/-- An inbound image-media message payload. -/
def data1 : MessageData where
  id := "m9"
  chatId := "c9"
  sender := none
  text := some "hi"
  mediaType := some "image"
  mediaUrl := some "u.jpg"
  quotedMsgId := none
  mentions := []
  reactions := []
  timestamp := none

/-- The empty store. -/
def emptyDB : DB where
  chats := []
  messages := []
  documents := []
  nextId := 0


/-- Folding the segment accumulator over a dotless character list appends
the list. -/
theorem lastSeg_go_no_dot (l : List Char) (h : '.' ∉ l) (acc : List Char) :
    l.foldl (fun acc c => if c = '.' then [] else acc ++ [c]) acc = acc ++ l := by
  induction l generalizing acc with
  | nil => simp
  | cons c cs ih =>
      have hc : ¬(c = '.') := fun hc => h (hc ▸ List.mem_cons_self c cs)
      have hcs : '.' ∉ cs := fun hm => h (List.mem_cons_of_mem c hm)
      simp [List.foldl_cons, hc, ih hcs]

/-- On a dotless list the extracted segment is the whole list. -/
theorem lastSeg_no_dot (l : List Char) (h : '.' ∉ l) : lastSeg l = l := by
  simpa using lastSeg_go_no_dot l h []

/-- Appending a dotted suffix makes the suffix the extracted segment. -/
theorem lastSeg_append_dot (l tail : List Char) (h : '.' ∉ tail) :
    lastSeg (l ++ '.' :: tail) = tail := by
  unfold lastSeg
  rw [List.foldl_append, List.foldl_cons]
  simpa using lastSeg_go_no_dot tail h []

/-- The two copies of the image-or-extension classification step are the
same function. -/
theorem classifyProcessDocument_eq (mt u : String) :
    classifyProcessDocument mt u = classifyWebhook mt u := rfl

/-- Whenever the helper classification yields a result, it is the result
of the webhook classification. -/
theorem classifyHelper_agrees (mt u : String) (ft : String × String)
    (h : classifyHelper mt u = some ft) : ft = classifyWebhook mt u := by
  unfold classifyHelper classifyWebhook at *
  by_cases h1 : mt = "image"
  · simp [h1] at h ⊢
    exact h.symm
  · by_cases h2 : mt = "document"
    · simp [h1, h2] at h ⊢
      split_ifs at h ⊢ <;> simp_all
    · simp [h1, h2] at h

end Numerize

namespace Numerize

/-- Extraction of a dotted all-lowercase-relevant suffix: appending a dot
and a dotless tail makes the lowercased tail the extension. -/
theorem extOf_append_dot (s tail : String) (h : '.' ∉ tail.toList) :
    extOf (s ++ ("." ++ tail)) = String.mk (tail.toList.map Char.toLower) := by
  unfold extOf
  have hl : (s ++ ("." ++ tail)).toList = s.toList ++ '.' :: tail.toList := by
    show (s ++ ("." ++ tail)).data = s.data ++ '.' :: tail.data
    simp [String.data_append]
  rw [hl, lastSeg_append_dot _ _ h]

/-- C4: for media classification document, the MIME type is derived from
the case-insensitive file-extension suffix of the media URL (pdf to
application/pdf with file type pdf, doc or docx to application/msword
with file type doc, anything else to application/octet-stream with file
type other); classification image always yields image/jpeg with file type
image; and the three implementations of the classify step (webhook
handler, manual controller, history-fetch helper) agree on this
mapping. -/
theorem C4_classification_correct (url : String) :
    classifyProcessDocument "document" url = classifyWebhook "document" url ∧
    classifyHelper "document" url = some (classifyWebhook "document" url) ∧
    classifyProcessDocument "image" url = classifyWebhook "image" url ∧
    classifyHelper "image" url = some (classifyWebhook "image" url) ∧
    classifyWebhook "image" url = ("image", "image/jpeg") ∧
    classifyWebhook "document" url =
      (if extOf url = "pdf" then ("pdf", "application/pdf")
       else if extOf url = "doc" ∨ extOf url = "docx" then
         ("doc", "application/msword")
       else ("other", "application/octet-stream")) ∧
    (∀ s : String, extOf (s ++ ".PDF") = "pdf") ∧
    (∀ s : String, extOf (s ++ ".docx") = "docx") := by
  refine ⟨rfl, ?_, rfl, ?_, rfl, ?_, ?_, ?_⟩
  · simp only [classifyHelper, classifyWebhook]
    split_ifs <;> rfl
  · simp only [classifyHelper, classifyWebhook]
    split_ifs <;> rfl
  · simp [classifyWebhook, List.mem_cons]
  · intro s
    have h := extOf_append_dot s "PDF" (by decide)
    simpa using h
  · intro s
    have h := extOf_append_dot s "docx" (by decide)
    simpa using h

/-- C9 counterexample: the dotless media URL pdf does not fall through to
file type other; the whole string is taken as the extension and matches
pdf, so the claim that every dotless URL classifies as other is false. -/
theorem C9_counterexample :
    ('.' ∉ ("pdf" : String).toList) ∧
    classifyWebhook "document" "pdf" = ("pdf", "application/pdf") ∧
    ¬ classifyWebhook "document" "pdf" = ("other", "application/octet-stream") := by
  decide

/-- C9 amended: classification is total over its string input; on a
dotless URL the whole lowercased string is taken as the extension (so it
maps according to that string, not necessarily to other); the result is
always one of the three document mappings; an extension matching none of
pdf, doc, docx yields other with application/octet-stream; the empty URL
yields other. -/
theorem C9_amended_total_classification (url : String) :
    (classifyWebhook "document" url = ("pdf", "application/pdf") ∨
     classifyWebhook "document" url = ("doc", "application/msword") ∨
     classifyWebhook "document" url = ("other", "application/octet-stream")) ∧
    ('.' ∉ url.toList → extOf url = String.mk (url.toList.map Char.toLower)) ∧
    (extOf url ≠ "pdf" → extOf url ≠ "doc" → extOf url ≠ "docx" →
      classifyWebhook "document" url = ("other", "application/octet-stream")) ∧
    classifyWebhook "document" "" = ("other", "application/octet-stream") := by
  refine ⟨?_, ?_, ?_, by decide⟩
  · simp only [classifyWebhook]
    rw [if_neg (by decide : ¬("document" : String) = "image")]
    split_ifs <;> simp
  · intro h
    unfold extOf
    rw [lastSeg_no_dot _ h]
  · intro h1 h2 h3
    simp [classifyWebhook, List.mem_cons, h1, h2, h3]

/-- C9 witness: the amended statement evaluated at the dotless URL xyz. -/
theorem C9_amended_witness :
    extOf "xyz" = String.mk ("xyz".toList.map Char.toLower) ∧
    classifyWebhook "document" "xyz" = ("other", "application/octet-stream") := by
  have h := C9_amended_total_classification "xyz"
  exact ⟨h.2.1 (by decide), h.2.2.1 (by decide) (by decide) (by decide)⟩

/-- C10: a webhook delivery whose event field is not message performs no
store writes and emits no broadcasts and no external calls: the store is
returned unchanged and the only effect is the fixed 200 OK
acknowledgment. -/
theorem C10_non_message_noop (env : Env) (w : Webhook) (db : DB)
    (h : w.event ≠ "message") :
    webhookDeliver env w db = (db, [.respond 200 "OK"]) := by
  simp [webhookDeliver, webhookPost, runPending, h]

/-- C10 witness: a status event on the empty store. -/
theorem C10_witness :
    webhookDeliver envOk { event := "status", data := none } emptyDB =
      (emptyDB, [.respond 200 "OK"]) :=
  C10_non_message_noop _ _ _ (by decide)

end Numerize

namespace Numerize

/-- C1 counterexample: the webhook-triggered entry point of the document
processing task performs no already-processed check. Invoked for message
m0 even though document d0 derived from m0 already exists in the store,
it still calls the OCR client once and ends with two Documents for m0,
refuting the claim that every entry point checks and stops. -/
theorem C1_counterexample :
    db0.findDocumentFor m0.ref = some d0 ∧
    docCountFor (processMediaDocument envOk m0 c0 db0).1 m0.ref = 2 ∧
    ((processMediaDocument envOk m0 c0 db0).2.filter isOcrCall).length = 1 := by
  decide

/-- C1 amended: only the manually-triggered entry point checks for an
existing Document for the originating Message; when one exists it stops
with the already-processed response, leaving the store unchanged and
making no download or OCR call. The webhook-triggered entry point
performs no such check and unconditionally creates a further Document
when download and OCR succeed. -/
theorem C1_amended_manual_guard_only (env : Env) (db : DB) (r : Nat)
    (m : Message) (d : Document)
    (hm : db.findMessageRef r = some m)
    (hurl : m.mediaUrl ≠ "")
    (htype : m.mediaType = "image" ∨ m.mediaType = "document")
    (hd : db.findDocumentFor m.ref = some d) :
    processDocument env r db = (db, [.respond 400 "Document already processed"]) ∧
    ∀ (c : Chat) (buf : Nat) (ocr : OcrResult),
      env.downloadMedia m.mediaUrl = .ok buf →
      env.ocrProcess buf (classifyWebhook m.mediaType m.mediaUrl).2 = .ok ocr →
      docCountFor (processMediaDocument env m c db).1 m.ref =
        docCountFor db m.ref + 1 := by
  have hcond : ¬(m.mediaUrl = "" ∨
      (m.mediaType ≠ "image" ∧ m.mediaType ≠ "document")) := by
    rcases htype with h | h <;> simp [hurl, h]
  constructor
  · simp [processDocument, hm, hcond, hd]
  · intro c buf ocr hdl hocr
    simp [processMediaDocument, hdl, hocr, saveDocument, docCountFor,
      List.filter_append]

/-- C1 witness: the amended statement at the concrete store db0 that
already holds a Document for m0. -/
theorem C1_amended_witness :
    processDocument envOk 1 db0 =
      (db0, [.respond 400 "Document already processed"]) ∧
    docCountFor (processMediaDocument envOk m0 c0 db0).1 m0.ref =
      docCountFor db0 m0.ref + 1 := by
  have h := C1_amended_manual_guard_only envOk db0 1 m0 d0 (by decide)
    (by decide) (Or.inr rfl) (by decide)
  exact ⟨h.1, h.2 c0 7 { text := some "hello" } rfl rfl⟩

/-- Failure hypothesis for a document processing run: the download fails,
or it succeeds and the OCR call on the downloaded buffer fails. -/
def mediaCallsFail (env : Env) (url mime : String) : Prop :=
  (∃ e, env.downloadMedia url = .error e) ∨
  (∃ buf e, env.downloadMedia url = .ok buf ∧ env.ocrProcess buf mime = .error e)

/-- C3 counterexample: on the history-fetch-triggered entry point
(helper _processMediaDocument), a run whose media download fails
broadcasts zero document-processing-error events (the catch block only
logs), refuting the claim that every entry point broadcasts exactly
one. No Document is created. -/
theorem C3_counterexample :
    envDlFail.downloadMedia m0.mediaUrl = .error "boom" ∧
    emitCount "document_processing_error"
      (_processMediaDocument envDlFail m0 c0 db1).2 = 0 ∧
    (_processMediaDocument envDlFail m0 c0 db1).1 = db1 :=
  ⟨rfl, by decide, by decide⟩

/-- C3 amended: when the download or the OCR call fails, the
webhook-triggered and the manually-triggered entry points each broadcast
exactly one document-processing-error event on the owning chat topic
carrying the failure message, and create zero Documents; the
history-fetch-triggered entry point creates zero Documents but
broadcasts zero error events (its failure is only logged). -/
theorem C3_amended_failure_notifications (env : Env) (m : Message)
    (c : Chat) (db : DB) (r : Nat)
    (hfail : mediaCallsFail env m.mediaUrl
      (classifyWebhook m.mediaType m.mediaUrl).2)
    (hm : db.findMessageRef r = some m)
    (hurl : m.mediaUrl ≠ "")
    (htype : m.mediaType = "image" ∨ m.mediaType = "document")
    (hnodoc : db.findDocumentFor m.ref = none)
    (hchat : db.findChatRef m.chat = some c) :
    (emitCount "document_processing_error"
        (processMediaDocument env m c db).2 = 1 ∧
      (processMediaDocument env m c db).1 = db ∧
      ∃ er, Eff.emit c.chatId "document_processing_error" (.msgErr m.ref er) ∈
        (processMediaDocument env m c db).2) ∧
    (emitCount "document_processing_error" (processDocument env r db).2 = 1 ∧
      (processDocument env r db).1 = db ∧
      ∃ er, Eff.emit c.chatId "document_processing_error" (.msgErr m.ref er) ∈
        (processDocument env r db).2) ∧
    (emitCount "document_processing_error"
        (_processMediaDocument env m c db).2 = 0 ∧
      (_processMediaDocument env m c db).1 = db) := by
  have hcond : ¬(m.mediaUrl = "" ∨
      (m.mediaType ≠ "image" ∧ m.mediaType ≠ "document")) := by
    rcases htype with h | h <;> simp [hurl, h]
  have hman : emitCount "document_processing_error"
      (processDocument env r db).2 = 1 ∧
      (processDocument env r db).1 = db ∧
      ∃ er, Eff.emit c.chatId "document_processing_error" (.msgErr m.ref er) ∈
        (processDocument env r db).2 := by
    refine ⟨?_, ?_, "whapiService is not defined", ?_⟩ <;>
      simp [processDocument, hm, hcond, hnodoc, hchat, emitCount]
  rcases hfail with ⟨e, hdl⟩ | ⟨buf, e, hdl, hocr⟩
  · refine ⟨⟨?_, ?_, e, ?_⟩, hman, ?_, ?_⟩
    · simp [processMediaDocument, hdl, emitCount]
    · simp [processMediaDocument, hdl]
    · simp [processMediaDocument, hdl]
    · rcases hcl : classifyHelper m.mediaType m.mediaUrl with _ | ft
      · simp [_processMediaDocument, hcl, emitCount]
      · simp [_processMediaDocument, hcl, hdl, emitCount]
    · rcases hcl : classifyHelper m.mediaType m.mediaUrl with _ | ft
      · simp [_processMediaDocument, hcl]
      · simp [_processMediaDocument, hcl, hdl]
  · refine ⟨⟨?_, ?_, e, ?_⟩, hman, ?_, ?_⟩
    · simp [processMediaDocument, hdl, hocr, emitCount]
    · simp [processMediaDocument, hdl, hocr]
    · simp [processMediaDocument, hdl, hocr]
    · rcases hcl : classifyHelper m.mediaType m.mediaUrl with _ | ft
      · simp [_processMediaDocument, hcl, emitCount]
      · have hft := classifyHelper_agrees _ _ _ hcl
        rw [← hft] at hocr
        simp [_processMediaDocument, hcl, hdl, hocr, emitCount]
    · rcases hcl : classifyHelper m.mediaType m.mediaUrl with _ | ft
      · simp [_processMediaDocument, hcl]
      · have hft := classifyHelper_agrees _ _ _ hcl
        rw [← hft] at hocr
        simp [_processMediaDocument, hcl, hdl, hocr]

/-- C3 witness: the amended statement at a failing download on the store
db1 holding m0 and no document. -/
theorem C3_amended_witness :
    (emitCount "document_processing_error"
        (processMediaDocument envDlFail m0 c0 db1).2 = 1 ∧
      (processMediaDocument envDlFail m0 c0 db1).1 = db1 ∧
      ∃ er, Eff.emit c0.chatId "document_processing_error" (.msgErr m0.ref er) ∈
        (processMediaDocument envDlFail m0 c0 db1).2) ∧
    (emitCount "document_processing_error" (processDocument envDlFail 1 db1).2 = 1 ∧
      (processDocument envDlFail 1 db1).1 = db1 ∧
      ∃ er, Eff.emit c0.chatId "document_processing_error" (.msgErr m0.ref er) ∈
        (processDocument envDlFail 1 db1).2) ∧
    (emitCount "document_processing_error"
        (_processMediaDocument envDlFail m0 c0 db1).2 = 0 ∧
      (_processMediaDocument envDlFail m0 c0 db1).1 = db1) :=
  C3_amended_failure_notifications envDlFail m0 c0 db1 1
    (Or.inl ⟨"boom", rfl⟩) (by decide) (by decide) (Or.inr rfl)
    (by decide) (by decide)

end Numerize

namespace Numerize

/-- C7 counterexample: a manually-triggered run of the document
processing task that passes every guard (message m0 present, processable
media, no existing Document) broadcasts zero document-processing
(started) events and attempts no download: it sends the HTTP 202
response and then fails at the unresolved provider-client reference with
one error broadcast - so the claimed started broadcast before the
download never happens on the manual entry point. -/
theorem C7_counterexample :
    emitCount "document_processing" (processDocument envOk 1 db1).2 = 0 ∧
    (processDocument envOk 1 db1).2.head? =
      some (.respond 202 "Document processing started") ∧
    emitCount "document_processing_error" (processDocument envOk 1 db1).2 = 1 ∧
    ((processDocument envOk 1 db1).2.filter isDownloadCall).length = 0 := by
  decide

/-- C7 amended: on the webhook-triggered entry point the
document-processing (started) broadcast on the owning chat topic is the
first effect, before any download attempt; the manually-triggered entry
point broadcasts no document-processing event and attempts no download at
all - past the guards it sends the HTTP 202 started response and then
fails at the unresolved provider-client reference, broadcasting a single
document-processing-error event on the owning chat topic. -/
theorem C7_amended_start_signal (env : Env) (m : Message) (c : Chat)
    (db : DB) (r : Nat)
    (hm : db.findMessageRef r = some m)
    (hurl : m.mediaUrl ≠ "")
    (htype : m.mediaType = "image" ∨ m.mediaType = "document")
    (hnodoc : db.findDocumentFor m.ref = none)
    (hchat : db.findChatRef m.chat = some c) :
    (processMediaDocument env m c db).2.head? =
      some (.emit c.chatId "document_processing" (.msg m.ref)) ∧
    processDocument env r db =
      (db, [.respond 202 "Document processing started",
            .emit c.chatId "document_processing_error"
              (.msgErr m.ref "whapiService is not defined")]) ∧
    emitCount "document_processing" (processDocument env r db).2 = 0 ∧
    ((processDocument env r db).2.filter isDownloadCall).length = 0 := by
  have hcond : ¬(m.mediaUrl = "" ∨
      (m.mediaType ≠ "image" ∧ m.mediaType ≠ "document")) := by
    rcases htype with h | h <;> simp [hurl, h]
  have hweb : (processMediaDocument env m c db).2.head? =
      some (.emit c.chatId "document_processing" (.msg m.ref)) := by
    rcases hdl : env.downloadMedia m.mediaUrl with e | buf
    · simp [processMediaDocument, hdl]
    · rcases hocr : env.ocrProcess buf (classifyWebhook m.mediaType m.mediaUrl).2
        with e2 | ocr
      · simp [processMediaDocument, hdl, hocr]
      · simp [processMediaDocument, hdl, hocr, saveDocument]
  have hrun : processDocument env r db =
      (db, [.respond 202 "Document processing started",
            .emit c.chatId "document_processing_error"
              (.msgErr m.ref "whapiService is not defined")]) := by
    simp [processDocument, hm, hcond, hnodoc, hchat]
  refine ⟨hweb, hrun, ?_, ?_⟩
  · rw [hrun]
    rfl
  · rw [hrun]
    rfl

/-- C7 witness: the amended statement on the store db1 holding m0 with no
document. -/
theorem C7_amended_witness :
    (processMediaDocument envOk m0 c0 db1).2.head? =
      some (.emit c0.chatId "document_processing" (.msg m0.ref)) ∧
    processDocument envOk 1 db1 =
      (db1, [.respond 202 "Document processing started",
             .emit c0.chatId "document_processing_error"
               (.msgErr m0.ref "whapiService is not defined")]) ∧
    emitCount "document_processing" (processDocument envOk 1 db1).2 = 0 ∧
    ((processDocument envOk 1 db1).2.filter isDownloadCall).length = 0 :=
  C7_amended_start_signal envOk m0 c0 db1 1 (by decide) (by decide)
    (Or.inr rfl) (by decide) (by decide)

end Numerize

namespace Numerize

/-- The webhook-triggered task never produces an HTTP response effect. -/
theorem processMediaDocument_no_respond (env : Env) (m : Message) (c : Chat)
    (db : DB) : ((processMediaDocument env m c db).2.filter isRespond) = [] := by
  rcases hdl : env.downloadMedia m.mediaUrl with e | buf
  · simp [processMediaDocument, hdl, isRespond]
  · rcases hocr : env.ocrProcess buf (classifyWebhook m.mediaType m.mediaUrl).2
      with e2 | ocr
    · simp [processMediaDocument, hdl, hocr, isRespond]
    · simp [processMediaDocument, hdl, hocr, saveDocument, isRespond]

/-- Running the detached task invocations never produces an HTTP
response effect. -/
theorem runPending_no_respond (env : Env) (p : List (Message × Chat))
    (db : DB) : ((runPending env p db).2.filter isRespond) = [] := by
  induction p generalizing db with
  | nil => simp [runPending]
  | cons x rest ih =>
      obtain ⟨m, c⟩ := x
      simp [runPending, List.filter_append, processMediaDocument_no_respond, ih]

/-- The ingestion pipeline itself never produces an HTTP response
effect. -/
theorem processMessage_no_respond (env : Env) (d : MessageData) (db : DB) :
    ((processMessage env d db).2.1.filter isRespond) = [] := by
  rcases hc : db.chats.find? (fun c => c.chatId == d.chatId) with _ | chat
  · rcases hw : env.getChatInfo d.chatId with e | wch
    · simp [processMessage, DB.findChat, hc, hw, isRespond]
    · rcases hm : db.messages.find? (fun x => x.messageId == d.id) with _ | m
      · simp only [processMessage, DB.findChat, DB.findMessageById, hc, hw, hm]
        split_ifs <;> simp [isRespond]
      · simp [processMessage, DB.findChat, DB.findMessageById, hc, hw, hm,
          isRespond]
  · rcases hm : db.messages.find? (fun x => x.messageId == d.id) with _ | m
    · simp only [processMessage, DB.findChat, DB.findMessageById, hc, hm]
      split_ifs <;> simp [isRespond]
    · simp [processMessage, DB.findChat, DB.findMessageById, hc, hm, isRespond]

/-- Environment in which the chat-metadata fetch fails. -/
def envCiFail : Env where
  getChatInfo := fun _ => .error "down"
  downloadMedia := envOk.downloadMedia
  ocrProcess := envOk.ocrProcess
  now := 42

/-- C6: the webhook endpoint always acknowledges with 200 OK as its first
effect, that acknowledgment is the only HTTP response of the whole
delivery (ingestion and detached processing produce none), and an
ingestion failure - in particular a chat-metadata fetch failure, which
aborts the event before message persistence - leaves the already-sent
response as the only effect besides the failed call, with the store
unchanged: the webhook caller never observes an ingestion failure. -/
theorem C6_ack_before_ingestion (env : Env) (w : Webhook) (db : DB) :
    (webhookDeliver env w db).2.head? = some (.respond 200 "OK") ∧
    ((webhookDeliver env w db).2.filter isRespond).length = 1 ∧
    (∀ d, w.event = "message" → w.data = some d →
      db.findChat d.chatId = none →
      (∃ e, env.getChatInfo d.chatId = .error e) →
      webhookDeliver env w db = (db, [.respond 200 "OK", .callGetChatInfo d.chatId])) := by
  refine ⟨?_, ?_, ?_⟩
  · by_cases he : w.event = "message"
    · rcases hd : w.data with _ | d
      · simp [webhookDeliver, webhookPost, he, hd, runPending]
      · simp [webhookDeliver, webhookPost, he, hd]
    · simp [webhookDeliver, webhookPost, he, runPending]
  · by_cases he : w.event = "message"
    · rcases hd : w.data with _ | d
      · simp [webhookDeliver, webhookPost, he, hd, runPending, isRespond]
      · simp [webhookDeliver, webhookPost, he, hd, List.filter_append,
          processMessage_no_respond, runPending_no_respond, isRespond]
    · simp [webhookDeliver, webhookPost, he, runPending, isRespond]
  · rintro d he hd hc ⟨e, hw⟩
    simp [webhookDeliver, webhookPost, he, hd, processMessage, hc, hw,
      runPending]

/-- C6 witness: a message event whose chat-metadata fetch fails on the
empty store. -/
theorem C6_witness :
    webhookDeliver envCiFail { event := "message", data := some data1 } emptyDB =
      (emptyDB, [.respond 200 "OK", .callGetChatInfo data1.chatId]) :=
  (C6_ack_before_ingestion envCiFail { event := "message", data := some data1 }
    emptyDB).2.2 data1 rfl rfl (by decide) ⟨"down", rfl⟩

/-- Chat resolution can succeed: the chat is already present, or the
provider metadata fetch returns ok. -/
def chatResolves (env : Env) (db : DB) (cid : String) : Prop :=
  (∃ c, db.findChat cid = some c) ∨ (∃ wch, env.getChatInfo cid = .ok wch)

/-- C8: the ingestion pipeline records a fire-and-forget document
processing invocation if and only if the newly persisted message's media
classification is image or document (none, video, audio and all others
trigger nothing), and the ingestion result - store, trace and pending
invocations - is entirely independent of the media download and OCR
collaborators, so the outcome of the task cannot affect ingestion. -/
theorem C8_media_trigger (env env2 : Env) (d : MessageData) (db : DB)
    (hci : env.getChatInfo = env2.getChatInfo) (hnow : env.now = env2.now) :
    processMessage env d db = processMessage env2 d db ∧
    (db.findMessageById d.id = none → chatResolves env db d.chatId →
      ((processMessage env d db).2.2 ≠ [] ↔
        (jsOr d.mediaType "none" = "image" ∨
         jsOr d.mediaType "none" = "document"))) := by
  constructor
  · unfold processMessage
    rw [hci, hnow]
  · intro hm hcr
    have hm' : db.messages.find? (fun x => x.messageId == d.id) = none := hm
    rcases hc : db.chats.find? (fun c => c.chatId == d.chatId) with _ | c
    · have hw : ∃ wch, env.getChatInfo d.chatId = .ok wch := by
        rcases hcr with ⟨c, hcc⟩ | h
        · rw [DB.findChat, hc] at hcc
          cases hcc
        · exact h
      obtain ⟨wch, hw⟩ := hw
      simp only [processMessage, DB.findChat, DB.findMessageById, hc, hw, hm']
      by_cases hcond : (messageFromData d (chatFromWhapi wch db.nextId).ref
          (db.nextId + 1) env.now).mediaType = "image" ∨
          (messageFromData d (chatFromWhapi wch db.nextId).ref
          (db.nextId + 1) env.now).mediaType = "document"
      · simp only [if_pos hcond]
        simpa [messageFromData] using hcond
      · simp only [if_neg hcond]
        simpa [messageFromData] using hcond
    · simp only [processMessage, DB.findChat, DB.findMessageById, hc, hm']
      by_cases hcond : (messageFromData d c.ref db.nextId env.now).mediaType =
          "image" ∨
          (messageFromData d c.ref db.nextId env.now).mediaType = "document"
      · simp only [if_pos hcond]
        simpa [messageFromData] using hcond
      · simp only [if_neg hcond]
        simpa [messageFromData] using hcond

/-- C8 witness: the all-success and failing-download environments agree on
chat fetch and clock, and the image message data1 triggers processing. -/
theorem C8_witness :
    processMessage envOk data1 emptyDB = processMessage envDlFail data1 emptyDB ∧
    ((processMessage envOk data1 emptyDB).2.2 ≠ [] ↔
      (jsOr data1.mediaType "none" = "image" ∨
       jsOr data1.mediaType "none" = "document")) := by
  have h := C8_media_trigger envOk envDlFail data1 emptyDB rfl rfl
  exact ⟨h.1, h.2 rfl (Or.inr ⟨_, rfl⟩)⟩

end Numerize

namespace Numerize

/-- Webhook envelope carrying one inbound message event. -/
def mkMessageEvent (d : MessageData) : Webhook := ⟨"message", some d⟩

/-- Broadcast counting distributes over trace concatenation. -/
theorem emitCount_append (ev : String) (t1 t2 : List Eff) :
    emitCount ev (t1 ++ t2) = emitCount ev t1 + emitCount ev t2 := by
  simp [emitCount, List.filter_append]

/-- The webhook-triggered task touches neither chats nor messages. -/
theorem processMediaDocument_store (env : Env) (m : Message) (c : Chat)
    (db : DB) :
    (processMediaDocument env m c db).1.chats = db.chats ∧
    (processMediaDocument env m c db).1.messages = db.messages := by
  rcases hdl : env.downloadMedia m.mediaUrl with e | buf
  · simp [processMediaDocument, hdl]
  · rcases hocr : env.ocrProcess buf (classifyWebhook m.mediaType m.mediaUrl).2
      with e2 | ocr
    · simp [processMediaDocument, hdl, hocr]
    · simp [processMediaDocument, hdl, hocr, saveDocument]

/-- Running detached task invocations touches neither chats nor
messages. -/
theorem runPending_store (env : Env) (p : List (Message × Chat)) (db : DB) :
    (runPending env p db).1.chats = db.chats ∧
    (runPending env p db).1.messages = db.messages := by
  induction p generalizing db with
  | nil => simp [runPending]
  | cons x rest ih =>
      obtain ⟨m, c⟩ := x
      have h1 := processMediaDocument_store env m c db
      have h2 := ih (processMediaDocument env m c db).1
      simp only [runPending]
      exact ⟨h2.1.trans h1.1, h2.2.trans h1.2⟩

/-- The webhook-triggered task only broadcasts document lifecycle
events. -/
theorem processMediaDocument_other_emits (env : Env) (m : Message) (c : Chat)
    (db : DB) (ev : String) (h1 : ev ≠ "document_processing")
    (h2 : ev ≠ "document_processing_error")
    (h3 : ev ≠ "document_processed") :
    emitCount ev (processMediaDocument env m c db).2 = 0 := by
  have g1 : ¬("document_processing" = ev) := fun h => h1 h.symm
  have g2 : ¬("document_processing_error" = ev) := fun h => h2 h.symm
  have g3 : ¬("document_processed" = ev) := fun h => h3 h.symm
  rcases hdl : env.downloadMedia m.mediaUrl with e | buf
  · simp [processMediaDocument, hdl, emitCount, g1, g2, g3]
  · rcases hocr : env.ocrProcess buf (classifyWebhook m.mediaType m.mediaUrl).2
      with e2 | ocr
    · simp [processMediaDocument, hdl, hocr, emitCount, g1, g2, g3]
    · simp [processMediaDocument, hdl, hocr, saveDocument, emitCount, g1, g2, g3]

/-- Detached task invocations only broadcast document lifecycle events. -/
theorem runPending_other_emits (env : Env) (p : List (Message × Chat))
    (db : DB) (ev : String) (h1 : ev ≠ "document_processing")
    (h2 : ev ≠ "document_processing_error")
    (h3 : ev ≠ "document_processed") :
    emitCount ev (runPending env p db).2 = 0 := by
  induction p generalizing db with
  | nil => simp [runPending, emitCount]
  | cons x rest ih =>
      obtain ⟨m, c⟩ := x
      simp only [runPending, emitCount_append]
      rw [processMediaDocument_other_emits env m c db ev h1 h2 h3,
        ih (processMediaDocument env m c db).1]

/-- A redelivered event whose chat and message are both already present is
a complete no-op of the ingestion pipeline. -/
theorem processMessage_noop (env : Env) (d : MessageData) (db : DB) (c : Chat)
    (m : Message) (hc : db.findChat d.chatId = some c)
    (hm : db.findMessageById d.id = some m) :
    processMessage env d db = (db, [], []) := by
  simp [processMessage, hc, hm]

/-- A redelivered event whose chat and message are both already present
yields only the acknowledgment at the webhook level. -/
theorem webhookDeliver_noop (env : Env) (d : MessageData) (db : DB) (c : Chat)
    (m : Message) (hc : db.findChat d.chatId = some c)
    (hm : db.findMessageById d.id = some m) :
    webhookDeliver env (mkMessageEvent d) db = (db, [.respond 200 "OK"]) := by
  simp [webhookDeliver, webhookPost, mkMessageEvent,
    processMessage_noop env d db c m hc hm, runPending]

/-- First-delivery shape when the chat is already present and the message
is new: one message appended, the chat last-message pointer updated in
place, one new-message broadcast, and a pending task exactly for media. -/
theorem processMessage_create_found (env : Env) (d : MessageData) (db : DB)
    (c : Chat) (hc : db.findChat d.chatId = some c)
    (hm : db.findMessageById d.id = none) :
    processMessage env d db =
      (let m := messageFromData d c.ref db.nextId env.now
       let chat2 : Chat := { c with lastMessage := some m.ref }
       let db3 : DB :=
         { chats := db.chats.map
             (fun c0 => if c0.ref = chat2.ref then chat2 else c0)
           messages := db.messages ++ [m]
           documents := db.documents
           nextId := db.nextId + 1 }
       if m.mediaType = "image" ∨ m.mediaType = "document" then
         (db3, [.emit d.chatId "new_message" (.msg m.ref)], [(m, chat2)])
       else
         (db3, [.emit d.chatId "new_message" (.msg m.ref)], [])) := by
  simp only [processMessage, hc, hm, DB.updateChat]
  simp only [List.nil_append, List.cons_append]

/-- First-delivery shape when the chat is absent and its metadata fetch
succeeds: one chat and one message appended, one new-chat and one
new-message broadcast, and a pending task exactly for media. -/
theorem processMessage_create_new (env : Env) (d : MessageData) (db : DB)
    (wch : WhapiChat) (hc : db.findChat d.chatId = none)
    (hw : env.getChatInfo d.chatId = .ok wch)
    (hm : db.findMessageById d.id = none) :
    processMessage env d db =
      (let chat := chatFromWhapi wch db.nextId
       let m := messageFromData d chat.ref (db.nextId + 1) env.now
       let chat2 : Chat := { chat with lastMessage := some m.ref }
       let db3 : DB :=
         { chats := (db.chats ++ [chat]).map
             (fun c0 => if c0.ref = chat2.ref then chat2 else c0)
           messages := db.messages ++ [m]
           documents := db.documents
           nextId := db.nextId + 1 + 1 }
       let tr : List Eff := [.callGetChatInfo d.chatId,
         .emitAll "new_chat" (.chat chat.ref),
         .emit d.chatId "new_message" (.msg m.ref)]
       if m.mediaType = "image" ∨ m.mediaType = "document" then
         (db3, tr, [(m, chat2)])
       else
         (db3, tr, [])) := by
  have hm' : db.messages.find? (fun x => x.messageId == d.id) = none := hm
  simp only [processMessage, hc, hw, DB.updateChat, DB.findMessageById, hm']
  simp only [List.nil_append, List.cons_append]

end Numerize

namespace Numerize

/-- Predicate truth of a found element, with fully explicit arguments. -/
theorem find?_pred {α : Type} (l : List α) (p : α → Bool) (a : α)
    (h : l.find? p = some a) : p a = true := List.find?_some h

/-- One webhook delivery of a message event, unfolded into the
acknowledgment, the ingestion trace and the detached task run. -/
theorem webhookDeliver_unfold (env : Env) (d : MessageData) (db : DB) :
    webhookDeliver env (mkMessageEvent d) db =
      ((runPending env (processMessage env d db).2.2 (processMessage env d db).1).1,
       .respond 200 "OK" :: ((processMessage env d db).2.1 ++
         (runPending env (processMessage env d db).2.2 (processMessage env d db).1).2)) := by
  simp [webhookDeliver, webhookPost, mkMessageEvent]

/-- Chat resolution succeeds and is stable: the chat is already stored,
or the provider metadata fetch succeeds and echoes the requested external
chat id. -/
def chatResolvesTo (env : Env) (db : DB) (cid : String) : Prop :=
  (∃ c, db.findChat cid = some c) ∨
  (db.findChat cid = none ∧ ∃ wch, env.getChatInfo cid = .ok wch ∧ wch.id = cid)

/-- C2: ingestion is idempotent in the external message identifier.
Delivering a fresh inbound message event (no stored message with that id,
chat resolvable) persists exactly one Message with that id and broadcasts
exactly one new-message event; redelivering the same event leaves the
store unchanged and produces only the acknowledgment: no store writes and
no broadcasts. -/
theorem C2_idempotent_ingestion (env : Env) (d : MessageData) (db : DB)
    (hm : db.findMessageById d.id = none)
    (hcr : chatResolvesTo env db d.chatId) :
    msgCount (webhookDeliver env (mkMessageEvent d) db).1 d.id = 1 ∧
    emitCount "new_message" (webhookDeliver env (mkMessageEvent d) db).2 = 1 ∧
    webhookDeliver env (mkMessageEvent d)
        (webhookDeliver env (mkMessageEvent d) db).1 =
      ((webhookDeliver env (mkMessageEvent d) db).1, [.respond 200 "OK"]) := by
  have hm' : db.messages.find? (fun x => x.messageId == d.id) = none := hm
  have hmfilter : db.messages.filter (fun x => x.messageId == d.id) = [] :=
    List.filter_eq_nil_iff.mpr (List.find?_eq_none.mp hm')
  have hrunst := fun (p : List (Message × Chat)) (dbx : DB) => runPending_store env p dbx
  rw [webhookDeliver_unfold env d db]
  rcases hcr with ⟨c, hc⟩ | ⟨hc, wch, hw, hid⟩
  · have hc' : db.chats.find? (fun x => x.chatId == d.chatId) = some c := hc
    have h1 := processMessage_create_found env d db c hc hm
    have hpm1m : (processMessage env d db).1.messages =
        db.messages ++ [messageFromData d c.ref db.nextId env.now] := by
      rw [h1]; dsimp only; split_ifs <;> rfl
    have hpm1c : (processMessage env d db).1.chats =
        db.chats.map (fun c0 => if c0.ref = c.ref then
          { c with lastMessage := some (messageFromData d c.ref db.nextId env.now).ref }
          else c0) := by
      rw [h1]; dsimp only; split_ifs <;> rfl
    have hpm21 : (processMessage env d db).2.1 =
        [.emit d.chatId "new_message"
          (.msg (messageFromData d c.ref db.nextId env.now).ref)] := by
      rw [h1]; dsimp only; split_ifs <;> rfl
    refine ⟨?_, ?_, ?_⟩
    · show msgCount _ d.id = 1
      unfold msgCount
      rw [(hrunst _ _).2, hpm1m, List.filter_append, hmfilter]
      simp [messageFromData]
    · have hsplit : (Eff.respond 200 "OK" :: ((processMessage env d db).2.1 ++
          (runPending env (processMessage env d db).2.2 (processMessage env d db).1).2)) =
          ([Eff.respond 200 "OK"] ++ (processMessage env d db).2.1) ++
          (runPending env (processMessage env d db).2.2 (processMessage env d db).1).2 := by
        simp
      rw [hsplit, emitCount_append, emitCount_append, hpm21]
      rw [runPending_other_emits env _ _ "new_message" (by decide) (by decide) (by decide)]
      rfl
    · have hfm : (runPending env (processMessage env d db).2.2
          (processMessage env d db).1).1.findMessageById d.id =
          some (messageFromData d c.ref db.nextId env.now) := by
        show (runPending env (processMessage env d db).2.2
          (processMessage env d db).1).1.messages.find? _ = _
        rw [(hrunst _ _).2, hpm1m, List.find?_append, hm']
        simp [messageFromData]
      have hex : ∃ x ∈ db.chats.map (fun c0 => if c0.ref = c.ref then
          { c with lastMessage := some (messageFromData d c.ref db.nextId env.now).ref }
          else c0), (x.chatId == d.chatId) = true := by
        refine ⟨_, List.mem_map_of_mem _ (List.mem_of_find?_eq_some hc'), ?_⟩
        have hptrue : (c.chatId == d.chatId) = true :=
          find?_pred db.chats (fun x => x.chatId == d.chatId) c hc'
        simpa using hptrue
      have hfc := List.find?_isSome.mpr hex
      rw [← hpm1c, ← (hrunst _ _).1] at hfc
      obtain ⟨c2, hc2⟩ := Option.isSome_iff_exists.mp hfc
      exact webhookDeliver_noop env d _ c2 _ hc2 hfm
  · have hc' : db.chats.find? (fun x => x.chatId == d.chatId) = none := hc
    have h1 := processMessage_create_new env d db wch hc hw hm
    have hpm1m : (processMessage env d db).1.messages =
        db.messages ++ [messageFromData d (chatFromWhapi wch db.nextId).ref
          (db.nextId + 1) env.now] := by
      rw [h1]; dsimp only; split_ifs <;> rfl
    have hpm1c : (processMessage env d db).1.chats =
        (db.chats ++ [chatFromWhapi wch db.nextId]).map
          (fun c0 => if c0.ref = (chatFromWhapi wch db.nextId).ref then
            { chatFromWhapi wch db.nextId with
              lastMessage := some (messageFromData d (chatFromWhapi wch db.nextId).ref
                (db.nextId + 1) env.now).ref }
            else c0) := by
      rw [h1]; dsimp only; split_ifs <;> rfl
    have hpm21 : (processMessage env d db).2.1 =
        [.callGetChatInfo d.chatId,
         .emitAll "new_chat" (.chat (chatFromWhapi wch db.nextId).ref),
         .emit d.chatId "new_message"
           (.msg (messageFromData d (chatFromWhapi wch db.nextId).ref
             (db.nextId + 1) env.now).ref)] := by
      rw [h1]; dsimp only; split_ifs <;> rfl
    refine ⟨?_, ?_, ?_⟩
    · show msgCount _ d.id = 1
      unfold msgCount
      rw [(hrunst _ _).2, hpm1m, List.filter_append, hmfilter]
      simp [messageFromData]
    · have hsplit : (Eff.respond 200 "OK" :: ((processMessage env d db).2.1 ++
          (runPending env (processMessage env d db).2.2 (processMessage env d db).1).2)) =
          ([Eff.respond 200 "OK"] ++ (processMessage env d db).2.1) ++
          (runPending env (processMessage env d db).2.2 (processMessage env d db).1).2 := by
        simp
      rw [hsplit, emitCount_append, emitCount_append, hpm21]
      rw [runPending_other_emits env _ _ "new_message" (by decide) (by decide) (by decide)]
      rfl
    · have hfm : (runPending env (processMessage env d db).2.2
          (processMessage env d db).1).1.findMessageById d.id =
          some (messageFromData d (chatFromWhapi wch db.nextId).ref
            (db.nextId + 1) env.now) := by
        show (runPending env (processMessage env d db).2.2
          (processMessage env d db).1).1.messages.find? _ = _
        rw [(hrunst _ _).2, hpm1m, List.find?_append, hm']
        simp [messageFromData]
      have hex : ∃ x ∈ (db.chats ++ [chatFromWhapi wch db.nextId]).map
          (fun c0 => if c0.ref = (chatFromWhapi wch db.nextId).ref then
            { chatFromWhapi wch db.nextId with
              lastMessage := some (messageFromData d (chatFromWhapi wch db.nextId).ref
                (db.nextId + 1) env.now).ref }
            else c0), (x.chatId == d.chatId) = true := by
        refine ⟨_, List.mem_map_of_mem _
          (List.mem_append_right db.chats (List.mem_singleton.mpr rfl)), ?_⟩
        simp [chatFromWhapi, hid]
      have hfc := List.find?_isSome.mpr hex
      rw [← hpm1c, ← (hrunst _ _).1] at hfc
      obtain ⟨c2, hc2⟩ := Option.isSome_iff_exists.mp hfc
      exact webhookDeliver_noop env d _ c2 _ hc2 hfm

end Numerize

namespace Numerize

/-- C2 witness: the idempotent-ingestion statement at the image message
data1 delivered twice onto the empty store. -/
theorem C2_witness :
    msgCount (webhookDeliver envOk (mkMessageEvent data1) emptyDB).1 data1.id = 1 ∧
    emitCount "new_message"
      (webhookDeliver envOk (mkMessageEvent data1) emptyDB).2 = 1 ∧
    webhookDeliver envOk (mkMessageEvent data1)
        (webhookDeliver envOk (mkMessageEvent data1) emptyDB).1 =
      ((webhookDeliver envOk (mkMessageEvent data1) emptyDB).1,
       [.respond 200 "OK"]) :=
  C2_idempotent_ingestion envOk data1 emptyDB rfl
    (Or.inr ⟨rfl, ⟨data1.chatId, some "N", none, some false, [], none⟩, rfl, rfl⟩)

end Numerize

namespace Numerize

/-- Ingesting a further message for an already-stored chat (its record
found under the requested external id, uniquely identified by its store
id) creates no further Chat record for any external id and broadcasts no
new-chat event. -/
theorem ingest_same_chat_again (env : Env) (d2 : MessageData) (dbF : DB)
    (X : Chat) (hfc : dbF.findChat d2.chatId = some X)
    (hagree : ∀ a ∈ dbF.chats, a.ref = X.ref → a.chatId = X.chatId) :
    (∀ cid : String,
      (webhookDeliver env (mkMessageEvent d2) dbF).1.chats.countP
          (fun x => x.chatId == cid) =
        dbF.chats.countP (fun x => x.chatId == cid)) ∧
    emitCount "new_chat" (webhookDeliver env (mkMessageEvent d2) dbF).2 = 0 := by
  rcases hm2 : dbF.findMessageById d2.id with _ | m2
  · have h1 := processMessage_create_found env d2 dbF X hfc hm2
    have hch : (processMessage env d2 dbF).1.chats =
        dbF.chats.map (fun c0 => if c0.ref = X.ref then { X with lastMessage := some (messageFromData d2 X.ref dbF.nextId env.now).ref } else c0) := by
      rw [h1]; dsimp only; split_ifs <;> rfl
    have hpm21 : (processMessage env d2 dbF).2.1 =
        [.emit d2.chatId "new_message"
          (.msg (messageFromData d2 X.ref dbF.nextId env.now).ref)] := by
      rw [h1]; dsimp only; split_ifs <;> rfl
    rw [webhookDeliver_unfold env d2 dbF]
    constructor
    · intro cid
      rw [(runPending_store env _ _).1, hch, List.countP_map]
      refine List.countP_congr ?_
      intro a ha
      by_cases href : a.ref = X.ref
      · have hid2 := hagree a ha href
        simp [href, hid2]
      · simp [href]
    · have hsplit : (Eff.respond 200 "OK" :: ((processMessage env d2 dbF).2.1 ++
          (runPending env (processMessage env d2 dbF).2.2
            (processMessage env d2 dbF).1).2)) =
          ([Eff.respond 200 "OK"] ++ (processMessage env d2 dbF).2.1) ++
          (runPending env (processMessage env d2 dbF).2.2
            (processMessage env d2 dbF).1).2 := by
        simp
      rw [hsplit, emitCount_append, emitCount_append, hpm21]
      rw [runPending_other_emits env _ _ "new_chat" (by decide) (by decide)
        (by decide)]
      rfl
  · rw [webhookDeliver_noop env d2 dbF X m2 hfc hm2]
    exact ⟨fun _ => rfl, rfl⟩

/-- C5: ingesting a message whose external chat id has no stored Chat
creates exactly one Chat, populated from the provider chat metadata, and
broadcasts exactly one new-chat event; ingesting a subsequent message for
the same chat id creates zero additional Chat records and zero additional
new-chat broadcasts. -/
theorem C5_chat_lazy_creation (env : Env) (d d2 : MessageData) (db : DB)
    (wch : WhapiChat)
    (hc : db.findChat d.chatId = none)
    (hw : env.getChatInfo d.chatId = .ok wch)
    (hid : wch.id = d.chatId)
    (hwf : ∀ c ∈ db.chats, c.ref < db.nextId)
    (hd2 : d2.chatId = d.chatId) :
    chatCount (webhookDeliver env (mkMessageEvent d) db).1 d.chatId = 1 ∧
    emitCount "new_chat" (webhookDeliver env (mkMessageEvent d) db).2 = 1 ∧
    (∃ c, (webhookDeliver env (mkMessageEvent d) db).1.findChat d.chatId =
        some c ∧
      c.chatId = wch.id ∧
      c.name = jsOr wch.name (jsOr wch.subject ("Chat with " ++ wch.id)) ∧
      c.isGroup = wch.isGroup.getD false ∧
      c.participants = wch.participants ∧
      c.profilePicture = jsOr wch.profilePictureUrl "") ∧
    chatCount (webhookDeliver env (mkMessageEvent d2)
        (webhookDeliver env (mkMessageEvent d) db).1).1 d.chatId = 1 ∧
    emitCount "new_chat" (webhookDeliver env (mkMessageEvent d2)
        (webhookDeliver env (mkMessageEvent d) db).1).2 = 0 := by
  have hc' : db.chats.find? (fun x => x.chatId == d.chatId) = none := hc
  have hcfilter : db.chats.filter (fun x => x.chatId == d.chatId) = [] :=
    List.filter_eq_nil_iff.mpr (List.find?_eq_none.mp hc')
  have hX : ∃ X : Chat,
      (webhookDeliver env (mkMessageEvent d) db).1.chats = db.chats ++ [X] ∧
      X.chatId = wch.id ∧
      X.name = jsOr wch.name (jsOr wch.subject ("Chat with " ++ wch.id)) ∧
      X.isGroup = wch.isGroup.getD false ∧
      X.participants = wch.participants ∧
      X.profilePicture = jsOr wch.profilePictureUrl "" ∧
      X.ref = db.nextId ∧
      emitCount "new_chat" (webhookDeliver env (mkMessageEvent d) db).2 = 1 := by
    rcases hm1 : db.findMessageById d.id with _ | m1
    · have h1 := processMessage_create_new env d db wch hc hw hm1
      have hch : (processMessage env d db).1.chats =
          (db.chats ++ [chatFromWhapi wch db.nextId]).map
            (fun c0 => if c0.ref = (chatFromWhapi wch db.nextId).ref then
              { chatFromWhapi wch db.nextId with
                lastMessage := some (messageFromData d
                  (chatFromWhapi wch db.nextId).ref (db.nextId + 1) env.now).ref }
              else c0) := by
        rw [h1]; dsimp only; split_ifs <;> rfl
      have hpm21 : (processMessage env d db).2.1 =
          [.callGetChatInfo d.chatId,
           .emitAll "new_chat" (.chat (chatFromWhapi wch db.nextId).ref),
           .emit d.chatId "new_message"
             (.msg (messageFromData d (chatFromWhapi wch db.nextId).ref
               (db.nextId + 1) env.now).ref)] := by
        rw [h1]; dsimp only; split_ifs <;> rfl
      refine ⟨{ chatFromWhapi wch db.nextId with
        lastMessage := some (messageFromData d (chatFromWhapi wch db.nextId).ref
          (db.nextId + 1) env.now).ref }, ?_, rfl, rfl, rfl, rfl, rfl, rfl, ?_⟩
      · rw [webhookDeliver_unfold env d db, (runPending_store env _ _).1, hch,
          List.map_append]
        have hold : db.chats.map (fun c0 =>
            if c0.ref = (chatFromWhapi wch db.nextId).ref then
              { chatFromWhapi wch db.nextId with
                lastMessage := some (messageFromData d
                  (chatFromWhapi wch db.nextId).ref (db.nextId + 1) env.now).ref }
              else c0) = db.chats := by
          refine (List.map_congr_left ?_).trans (List.map_id db.chats)
          intro a ha
          have hne : a.ref ≠ db.nextId := Nat.ne_of_lt (hwf a ha)
          simp [chatFromWhapi, hne]
        rw [hold]
        simp
      · rw [webhookDeliver_unfold env d db]
        have hsplit : (Eff.respond 200 "OK" :: ((processMessage env d db).2.1 ++
            (runPending env (processMessage env d db).2.2
              (processMessage env d db).1).2)) =
            ([Eff.respond 200 "OK"] ++ (processMessage env d db).2.1) ++
            (runPending env (processMessage env d db).2.2
              (processMessage env d db).1).2 := by
          simp
        rw [hsplit, emitCount_append, emitCount_append, hpm21]
        rw [runPending_other_emits env _ _ "new_chat" (by decide) (by decide)
          (by decide)]
        rfl
    · have hm1' : db.messages.find? (fun x => x.messageId == d.id) = some m1 :=
        hm1
      have h1 : processMessage env d db =
          ({ db with chats := db.chats ++ [chatFromWhapi wch db.nextId], nextId := db.nextId + 1 },
           [.callGetChatInfo d.chatId,
            .emitAll "new_chat" (.chat (chatFromWhapi wch db.nextId).ref)],
           []) := by
        simp only [processMessage, hc, hw, DB.findMessageById, hm1']
      refine ⟨chatFromWhapi wch db.nextId, ?_, rfl, rfl, rfl, rfl, rfl, rfl, ?_⟩
      · rw [webhookDeliver_unfold env d db, (runPending_store env _ _).1, h1]
      · rw [webhookDeliver_unfold env d db, h1]
        simp [runPending, emitCount]
  obtain ⟨X, hXchats, hXid, hXname, hXgrp, hXpart, hXpic, hXref, hXemit⟩ := hX
  have hXp : (X.chatId == d.chatId) = true := by
    rw [hXid, hid]
    exact beq_self_eq_true d.chatId
  have hfilterF : (webhookDeliver env (mkMessageEvent d) db).1.chats.filter
      (fun x => x.chatId == d.chatId) = [X] := by
    rw [hXchats, List.filter_append, hcfilter]
    simp [hXp]
  have hcount1 : chatCount (webhookDeliver env (mkMessageEvent d) db).1
      d.chatId = 1 := by
    unfold chatCount
    rw [hfilterF]
    rfl
  have hfindX : (webhookDeliver env (mkMessageEvent d) db).1.findChat
      d.chatId = some X := by
    show (webhookDeliver env (mkMessageEvent d) db).1.chats.find? _ = _
    rw [hXchats, List.find?_append, hc']
    simp [hXp]
  have hagree : ∀ a ∈ (webhookDeliver env (mkMessageEvent d) db).1.chats,
      a.ref = X.ref → a.chatId = X.chatId := by
    intro a ha href
    rw [hXchats] at ha
    rcases List.mem_append.mp ha with hmem | hmem
    · exact absurd (href.trans hXref) (Nat.ne_of_lt (hwf a hmem))
    · rw [List.mem_singleton.mp hmem]
  have hfc2 : (webhookDeliver env (mkMessageEvent d) db).1.findChat
      d2.chatId = some X := by
    rw [hd2]
    exact hfindX
  have hsecond := ingest_same_chat_again env d2
    (webhookDeliver env (mkMessageEvent d) db).1 X hfc2 hagree
  refine ⟨hcount1, hXemit, ⟨X, hfindX, hXid, hXname, hXgrp, hXpart, hXpic⟩,
    ?_, hsecond.2⟩
  have := hsecond.1 d.chatId
  unfold chatCount
  rw [← List.countP_eq_length_filter, this, List.countP_eq_length_filter,
    hfilterF]
  rfl

end Numerize

namespace Numerize

/-- A second inbound message payload for the same chat as data1. -/
def data2 : MessageData where
  id := "m10"
  chatId := "c9"
  sender := some "s2"
  text := some "again"
  mediaType := none
  mediaUrl := none
  quotedMsgId := none
  mentions := []
  reactions := []
  timestamp := some 9

/-- C5 witness: lazy chat creation for data1 on the empty store followed
by the distinct message data2 for the same chat id. -/
theorem C5_witness :
    chatCount (webhookDeliver envOk (mkMessageEvent data1) emptyDB).1
      data1.chatId = 1 ∧
    emitCount "new_chat"
      (webhookDeliver envOk (mkMessageEvent data1) emptyDB).2 = 1 ∧
    (∃ c, (webhookDeliver envOk (mkMessageEvent data1) emptyDB).1.findChat
        data1.chatId = some c ∧
      c.chatId = "c9" ∧
      c.name = jsOr (some "N") (jsOr none ("Chat with " ++ "c9")) ∧
      c.isGroup = (some false).getD false ∧
      c.participants = ([] : List String) ∧
      c.profilePicture = jsOr none "") ∧
    chatCount (webhookDeliver envOk (mkMessageEvent data2)
        (webhookDeliver envOk (mkMessageEvent data1) emptyDB).1).1
      data1.chatId = 1 ∧
    emitCount "new_chat" (webhookDeliver envOk (mkMessageEvent data2)
        (webhookDeliver envOk (mkMessageEvent data1) emptyDB).1).2 = 0 :=
  C5_chat_lazy_creation envOk data1 data2 emptyDB
    ⟨"c9", some "N", none, some false, [], none⟩ rfl rfl rfl
    (by decide) rfl

end Numerize
